import Mathlib

/-!
Verification of the datacat Python client (src/python/datacat.py): a shallow
embedding of its concurrency and resource-management layer — the async
delivery queue (AsyncSession), the heartbeat monitor (HeartbeatMonitor), the
daemon subprocess supervisor (DaemonManager) and the Timer scope guard —
together with theorems settling the specification claims about them.

Time is modelled as rational numbers of seconds.  Fallible collaborator calls
(HTTP requests of the synchronous facade, process spawning, file removal) are
modelled by explicit outcome parameters, since their success is decided by the
environment, not by this code.
-/

namespace Datacat

/-- Outcome of one synchronous collaborator call (an HTTP request in the
source): it either returns normally or raises an exception carrying a
message (`DatacatClient._make_request` wraps every failure in
`Exception(error_msg)`). -/
inductive Outcome where
  | ok
  | err (msg : String)
deriving DecidableEq, Repr

/-- True when the call returned without error. -/
def Outcome.isOk : Outcome → Bool
  | Outcome.ok => true
  | Outcome.err _ => false

/-- The message of a failing call (empty for a successful one). -/
def Outcome.errMsg : Outcome → String
  | Outcome.ok => ""
  | Outcome.err m => m

/-- The discriminated kind of a queued work item, the `type` key of the dict
built by `AsyncSession._queue_item`. -/
inductive ItemType where
  | event
  | metric
  | state
  | exception
deriving DecidableEq, Repr

/-- A unit of deferred work in the async delivery queue: the dict
`\x7b'type': item_type, 'data': data\x7d` of `AsyncSession._queue_item`.
The kind-specific payload dict is modelled as an association list. -/
structure WorkItem where
  itemType : ItemType
  data : List (String × String)
deriving DecidableEq, Repr

/-- The synchronous session facade the async queue wraps (`Session`): each
operation may fail with a transport error (spec section 6).  The behaviour of
the collaborator is a parameter of the model. -/
structure SyncFacade where
  updateState : List (String × String) → Outcome
  logEvent : List (String × String) → Outcome
  logMetric : List (String × String) → Outcome
  logException : List (String × String) → Outcome
  endSession : Outcome

/-- State of `DatacatClient`.  Its `__init__` (datacat.py:216-230)
unconditionally sets `use_daemon = True`. -/
structure ClientState where
  useDaemon : Bool
deriving DecidableEq, Repr

/-- `DatacatClient.__init__`: `self.use_daemon = True  # Always use daemon`. -/
def mkDatacatClient : ClientState :=
  { useDaemon := true }

/-- Signals observably delivered to the collector by the heartbeat machinery:
the POST to /heartbeat, the `application_appears_hung` event and the
`application_recovered` event. -/
inductive Signal where
  | heartbeatPost
  | hangEvent
  | recoveryEvent
deriving DecidableEq, Repr

/-- State of a `HeartbeatMonitor`.  `threadsSpawned` is ghost instrumentation
counting how many checker threads `start()` has created. -/
structure MonitorState where
  client : ClientState
  sessionId : String
  timeout : ℚ
  checkInterval : ℚ
  lastHeartbeat : ℚ
  running : Bool
  hungLogged : Bool
  threadsSpawned : ℕ
deriving DecidableEq, Repr

/-- `HeartbeatMonitor.__init__` at construction time `now`. -/
def mkHeartbeatMonitor (client : ClientState) (sessionId : String)
    (timeout checkInterval now : ℚ) : MonitorState :=
  { client := client
    sessionId := sessionId
    timeout := timeout
    checkInterval := checkInterval
    lastHeartbeat := now
    running := false
    hungLogged := false
    threadsSpawned := 0 }

/-- `HeartbeatMonitor.start()`: a no-op returning self when already running;
otherwise records the current time as last heartbeat, clears the hung flag and
launches the checker thread.  The returned Bool says whether a new thread was
spawned. -/
def monitorStart (now : ℚ) (m : MonitorState) : MonitorState × Bool :=
  if m.running then (m, false)
  else
    ({ m with
        running := true
        lastHeartbeat := now
        hungLogged := false
        threadsSpawned := m.threadsSpawned + 1 }, true)

/-- `HeartbeatMonitor.stop()`: signals the checker to exit. -/
def monitorStop (m : MonitorState) : MonitorState :=
  { m with running := false }

/-- One iteration of `HeartbeatMonitor._monitor_loop`, woken at absolute time
`now` after sleeping `check_interval`.  When the client uses the daemon the
body is skipped entirely (`if self.client.use_daemon: continue`).  Otherwise,
if the elapsed time since the last heartbeat exceeds the timeout and the hung
flag is not set, the loop tries to log the `application_appears_hung` event;
`emitOk` tells whether that `log_event` call succeeds — on failure the
exception is swallowed and the flag is left unset. -/
def monitorCheck (now : ℚ) (emitOk : Bool) (m : MonitorState) :
    MonitorState × List Signal :=
  if m.client.useDaemon then (m, [])
  else
    if now - m.lastHeartbeat > m.timeout ∧ m.hungLogged = false then
      if emitOk then ({ m with hungLogged := true }, [Signal.hangEvent])
      else (m, [])
    else (m, [])

/-- `n` iterations of the checker loop with no intervening heartbeats: the
`k`-th wake-up happens at `startTime + k * check_interval` (the loop sleeps
`check_interval` before each evaluation).  Returns the final monitor state and
the concatenated emitted signals. -/
def monitorRun (emitOk : Bool) (startTime : ℚ) (m : MonitorState) :
    ℕ → MonitorState × List Signal
  | 0 => (m, [])
  | Nat.succ n =>
    let p := monitorRun emitOk startTime m n
    let c := monitorCheck (startTime + (Nat.succ n : ℚ) * m.checkInterval) emitOk p.1
    (c.1, p.2 ++ c.2)

/-- `HeartbeatMonitor.heartbeat()`: resets the last-heartbeat timestamp, POSTs
/heartbeat (failure swallowed, `postOk` tells whether it reached the daemon),
and, if the hung flag was set, clears it and tries to log the
`application_recovered` event (failure swallowed, `recoveryOk` tells whether
it was delivered).  Total: no failure propagates to the caller. -/
def monitorHeartbeat (now : ℚ) (postOk recoveryOk : Bool) (m : MonitorState) :
    MonitorState × List Signal :=
  let m1 := { m with lastHeartbeat := now }
  let postSigs := if postOk then [Signal.heartbeatPost] else []
  if m1.hungLogged then
    ({ m1 with hungLogged := false },
      postSigs ++ (if recoveryOk then [Signal.recoveryEvent] else []))
  else (m1, postSigs)

/-- State of a `Session`: its client, its id and the optional heartbeat
monitor (`self._heartbeat_monitor`, initially None). -/
structure SessionState where
  client : ClientState
  sessionId : String
  monitor : Option MonitorState
deriving Repr

/-- `Session.start_heartbeat_monitor(timeout, check_interval)`: creates the
monitor only when none exists yet, then calls `start()` on it and returns
it. -/
def startHeartbeatMonitor (now timeout checkInterval : ℚ) (s : SessionState) :
    SessionState × MonitorState :=
  let m0 :=
    match s.monitor with
    | none => mkHeartbeatMonitor s.client s.sessionId timeout checkInterval now
    | some m => m
  let m1 := (monitorStart now m0).1
  ({ s with monitor := some m1 }, m1)

/-- `Session.heartbeat()`: raises when no monitor has been started, otherwise
forwards to the monitor. -/
def sessionHeartbeat (now : ℚ) (postOk recoveryOk : Bool) (s : SessionState) :
    Except String (SessionState × List Signal) :=
  match s.monitor with
  | some m =>
    let r := monitorHeartbeat now postOk recoveryOk m
    Except.ok ({ s with monitor := some r.1 }, r.2)
  | none =>
    Except.error "Heartbeat monitor not started. Call start_heartbeat_monitor() first."

/-- `Session.end()`: stops the heartbeat monitor if one is running, then
performs `client.end_session`, whose outcome (possibly an exception) is
returned to the caller. -/
def sessionEnd (f : SyncFacade) (s : SessionState) : SessionState × Outcome :=
  match s.monitor with
  | some m => ({ s with monitor := some (monitorStop m) }, f.endSession)
  | none => (s, f.endSession)

/-- State of an `AsyncSession`: the bounded work-item queue (front = oldest),
its capacity, the construction-time drop policy, the worker-control flag, the
liveness of the background thread, the statistics counters and the wrapped
session. -/
structure AsyncSessionState where
  queue : List WorkItem
  queueSize : ℕ
  dropOnFull : Bool
  running : Bool
  threadAlive : Bool
  sentCount : ℕ
  droppedCount : ℕ
  session : SessionState
deriving Repr

/-- `queue.Queue.put_nowait`: raises `queue.Full` when the queue is bounded
(maxsize > 0) and at capacity, otherwise appends the item. -/
def putNowait (maxsize : ℕ) (q : List WorkItem) (it : WorkItem) :
    Except Unit (List WorkItem) :=
  if 0 < maxsize ∧ maxsize ≤ q.length then Except.error ()
  else Except.ok (q ++ [it])

/-- `AsyncSession._queue_item`: under drop-on-full it tries `put_nowait` and
catches `queue.Full` by incrementing the dropped counter; otherwise it uses
the blocking `put`, which waits until space is available and then enqueues.
The returned Bool records whether the call had to block.  The queue-full
condition is never raised to the caller: the function is total. -/
def queueItem (a : AsyncSessionState) (it : WorkItem) :
    AsyncSessionState × Bool :=
  if a.dropOnFull then
    match putNowait a.queueSize a.queue it with
    | Except.ok q => ({ a with queue := q }, false)
    | Except.error _ => ({ a with droppedCount := a.droppedCount + 1 }, false)
  else
    ({ a with queue := a.queue ++ [it] },
      decide (0 < a.queueSize ∧ a.queueSize ≤ a.queue.length))

/-- `AsyncSession.log_event`: enqueues an event work item. -/
def asyncLogEvent (a : AsyncSessionState) (name : String)
    (fields : List (String × String)) : AsyncSessionState × Bool :=
  queueItem a { itemType := ItemType.event, data := ("name", name) :: fields }

/-- `AsyncSession.log_metric`: enqueues a metric work item. -/
def asyncLogMetric (a : AsyncSessionState) (name value : String)
    (fields : List (String × String)) : AsyncSessionState × Bool :=
  queueItem a
    { itemType := ItemType.metric
      data := ("name", name) :: ("value", value) :: fields }

/-- `AsyncSession.update_state`: enqueues a state-update work item. -/
def asyncUpdateState (a : AsyncSessionState) (fields : List (String × String)) :
    AsyncSessionState × Bool :=
  queueItem a { itemType := ItemType.state, data := fields }

/-- `AsyncSession.log_exception`: enqueues an exception work item. -/
def asyncLogException (a : AsyncSessionState) (fields : List (String × String)) :
    AsyncSessionState × Bool :=
  queueItem a { itemType := ItemType.exception, data := fields }

/-- The dispatch of `AsyncSession._background_sender` on one popped item: it
invokes the synchronous session operation matching the item kind. -/
def invokeSync (f : SyncFacade) (it : WorkItem) : Outcome :=
  match it.itemType with
  | ItemType.event => f.logEvent it.data
  | ItemType.metric => f.logMetric it.data
  | ItemType.state => f.updateState it.data
  | ItemType.exception => f.logException it.data

/-- Processing of one popped item by `_background_sender`: on success the
sent counter is incremented; a delivery failure is caught, printed as
`AsyncSession error: ...`, and the item is skipped (no retry, no state
change). -/
def processOne (f : SyncFacade) (a : AsyncSessionState) (it : WorkItem) :
    AsyncSessionState × List String :=
  match invokeSync f it with
  | Outcome.ok => ({ a with sentCount := a.sentCount + 1 }, [])
  | Outcome.err m => (a, ["AsyncSession error: " ++ m])

/-- The background worker applied to the sequence of items it pops, in FIFO
order; returns the final state and the error lines it printed.  The loop body
never breaks on a failing item. -/
def runWorker (f : SyncFacade) (a : AsyncSessionState) :
    List WorkItem → AsyncSessionState × List String
  | [] => (a, [])
  | it :: rest =>
    let r := processOne f a it
    let rr := runWorker f r.1 rest
    (rr.1, r.2 ++ rr.2)

/-- `AsyncSession.shutdown(timeout)`: flushes (a bounded wait that mutates no
producer-visible state), clears the running flag, joins the worker thread if
it is still alive, then performs the underlying session's `end()` and returns
its outcome — an exception from `end_session` propagates to the caller. -/
def asyncShutdown (f : SyncFacade) (a : AsyncSessionState) :
    AsyncSessionState × Outcome :=
  let a1 := { a with running := false }
  let a2 := if a1.threadAlive then { a1 with threadAlive := false } else a1
  let r := sessionEnd f a2.session
  ({ a2 with session := r.1 }, r.2)

/-- `AsyncSession.heartbeat()`: forwards to the underlying session's monitor
when one has been started, else does nothing at all (no error, no enqueue, no
state change). -/
def asyncHeartbeat (now : ℚ) (postOk recoveryOk : Bool)
    (a : AsyncSessionState) : AsyncSessionState × List Signal :=
  match a.session.monitor with
  | none => (a, [])
  | some m =>
    let r := monitorHeartbeat now postOk recoveryOk m
    ({ a with session := { a.session with monitor := some r.1 } }, r.2)

/-- Observable actions of `DaemonManager.start` and `DaemonManager.stop`, in
the order the code performs them. -/
inductive DaemonAction where
  | makeConfigDir
  | writeConfig (path : String)
  | spawnProc (binary : String) (envConfigPath : String)
  | sleepGrace
  | pollLiveness
  | registerAtexit
  | terminateProc
  | waitProc
  | killProc
  | removeConfig (path : String)
deriving DecidableEq, Repr

/-- Behaviour of the spawned daemon subprocess, decided by the environment:
whether `poll()` after the one-second grace period reports it already exited,
and its captured diagnostic output. -/
structure ProcBehavior where
  exitsDuringGrace : Bool
  stderrOutput : String
  stdoutOutput : String
deriving DecidableEq, Repr

/-- Result of the `subprocess.Popen` call: either an OSError or a spawned
process with the given behaviour. -/
inductive SpawnResult where
  | osError (msg : String)
  | spawned (b : ProcBehavior)
deriving DecidableEq, Repr

/-- State of a `DaemonManager`.  `processAlive = none` means no subprocess was
ever spawned; `some b` means one was, with `b` its current liveness
(`poll() is None`).  `fs` is the set of configuration-artifact paths present
on disk, as a duplicate-free list. -/
structure DaemonState where
  daemonPort : String
  serverUrl : String
  daemonBinary : String
  processAlive : Option Bool
  started : Bool
  configPath : Option String
  fs : List String
deriving DecidableEq, Repr

/-- `DaemonManager.__init__`. -/
def mkDaemonManager (daemonPort serverUrl daemonBinary : String)
    (fs : List String) : DaemonState :=
  { daemonPort := daemonPort
    serverUrl := serverUrl
    daemonBinary := daemonBinary
    processAlive := none
    started := false
    configPath := none
    fs := fs }

/-- The per-port configuration artifact path,
`tmp/daemon_configs/daemon_config_\x7bport\x7d.json`. -/
def configPathFor (port : String) : String :=
  "tmp/daemon_configs/daemon_config_" ++ port ++ ".json"

/-- Result of one `DaemonManager.start` call: the mutated manager state, the
trace of performed actions, and the message of the raised exception when the
launch failed (`raised = none` on success). -/
structure StartResult where
  state : DaemonState
  trace : List DaemonAction
  raised : Option String
deriving DecidableEq, Repr

/-- `DaemonManager.start()`: no-op when already started with a live process.
Otherwise resolves the port ("auto" or the legacy "8079" are replaced by a
fresh ephemeral port, supplied by the environment as `resolvedPort`), writes
the per-port configuration artifact, spawns the subprocess with the config
path in its environment (`DATACAT_CONFIG`), sleeps a one-second grace period,
polls liveness, and raises with the captured stderr and stdout if the process
already exited; an OSError from the spawn raises an exception naming the
binary. -/
def daemonStart (resolvedPort : String) (sp : SpawnResult) (d : DaemonState) :
    StartResult :=
  if d.started = true ∧ d.processAlive = some true then
    { state := d, trace := [], raised := none }
  else
    let port :=
      if d.daemonPort = "auto" ∨ d.daemonPort = "8079" then resolvedPort
      else d.daemonPort
    let cfg := configPathFor port
    let d1 := { d with
        daemonPort := port
        configPath := some cfg
        fs := cfg :: d.fs.filter (fun q => q ≠ cfg) }
    let tr1 := [DaemonAction.makeConfigDir, DaemonAction.writeConfig cfg]
    match sp with
    | SpawnResult.osError msg =>
      { state := d1
        trace := tr1
        raised := some ("Failed to start daemon binary " ++ d.daemonBinary
          ++ ": " ++ msg) }
    | SpawnResult.spawned b =>
      let tr2 := tr1 ++ [DaemonAction.spawnProc d.daemonBinary cfg,
        DaemonAction.sleepGrace, DaemonAction.pollLiveness]
      if b.exitsDuringGrace then
        { state := { d1 with processAlive := some false, started := true }
          trace := tr2
          raised := some ("Daemon failed to start. Stderr: " ++ b.stderrOutput
            ++ ", Stdout: " ++ b.stdoutOutput) }
      else
        { state := { d1 with processAlive := some true, started := true }
          trace := tr2 ++ [DaemonAction.registerAtexit]
          raised := none }

/-- `DaemonManager.stop()`: if the subprocess is alive, asks it to terminate,
waits up to five seconds (`exitsInTime` tells whether the wait succeeded) and
force-kills it otherwise; clears the started flag; then best-effort deletes
the configuration artifact (`removeOk` tells whether `os.remove` succeeded —
any failure there, including a None config path, is swallowed). -/
def daemonStop (exitsInTime removeOk : Bool) (d : DaemonState) :
    DaemonState × List DaemonAction :=
  let r1 :=
    if d.processAlive = some true then
      if exitsInTime then
        ({ d with processAlive := some false },
          [DaemonAction.terminateProc, DaemonAction.waitProc])
      else
        ({ d with processAlive := some false },
          [DaemonAction.terminateProc, DaemonAction.waitProc,
            DaemonAction.killProc])
    else (d, [])
  let d2 := { r1.1 with started := false }
  match d2.configPath with
  | some p =>
    if p ∈ d2.fs then
      if removeOk then
        ({ d2 with fs := d2.fs.filter (fun q => q ≠ p) },
          r1.2 ++ [DaemonAction.removeConfig p])
      else (d2, r1.2)
    else (d2, r1.2)
  | none => (d2, r1.2)

/-- `DaemonManager.is_running()`: `self._started and self.process and
self.process.poll() is None`. -/
def isRunning (d : DaemonState) : Bool :=
  d.started && decide (d.processAlive = some true)

/-- State of a `Timer` scope guard after `__enter__`. -/
structure TimerState where
  name : String
  count : ℤ
  tags : Option (List String)
  unit : String
  startTime : ℚ
deriving DecidableEq, Repr

/-- The arguments of the `log_metric` call issued by `Session.log_timer`, as
reached from `Timer.__exit__`. -/
structure TimerMetric where
  name : String
  metricType : String
  value : ℚ
  count : Option ℤ
  tags : Option (List String)
  unit : String
deriving DecidableEq, Repr

/-- `Timer.__enter__`: records the start time. -/
def timerEnter (now : ℚ) (t : TimerState) : TimerState :=
  { t with startTime := now }

/-- `Timer.__exit__(exc_type, exc_val, exc_tb)`, invoked at time `endTime`;
`excRaised` tells whether the protected block is exiting with an in-flight
exception.  Computes the elapsed duration from the recorded start time,
multiplies by 1000 when the configured unit is "milliseconds", emits the
timer metric with the iteration count included only when positive, and
returns False so the in-flight exception is never suppressed. -/
def timerExit (endTime : ℚ) (_excRaised : Bool) (t : TimerState) :
    TimerMetric × Bool :=
  let duration := endTime - t.startTime
  let converted := if t.unit = "milliseconds" then duration * 1000 else duration
  ({ name := t.name
     metricType := "timer"
     value := converted
     count := if t.count > 0 then some t.count else none
     tags := t.tags
     unit := t.unit }, false)

/-- C1: when the bounded queue is full, `_queue_item` under drop-on-full
discards the item and increments the dropped counter by exactly one without
blocking, and under the blocking policy blocks until space is available with
the dropped counter unchanged; the queue-full condition raised by
`put_nowait` is caught and never reaches the caller (`queueItem` is total and
returns normally in both branches). -/
theorem queue_full_policy (a : AsyncSessionState) (it : WorkItem)
    (hpos : 0 < a.queueSize) (hfull : a.queueSize ≤ a.queue.length) :
    putNowait a.queueSize a.queue it = Except.error ()
    ∧ (a.dropOnFull = true →
        queueItem a it
          = ({ a with droppedCount := a.droppedCount + 1 }, false))
    ∧ (a.dropOnFull = false →
        queueItem a it = ({ a with queue := a.queue ++ [it] }, true)) := by
  have hp : putNowait a.queueSize a.queue it = Except.error () := by
    simp [putNowait, hpos, hfull]
  refine ⟨hp, ?_, ?_⟩
  · intro hd
    simp [queueItem, hd, hp]
  · intro hd
    simp [queueItem, hd, hpos, hfull]

/-- C1 witness: a concrete full queue of capacity one, exercised under both
policies. -/
theorem queue_full_policy_witness :
    let it0 : WorkItem := { itemType := ItemType.event, data := [] }
    let sess : SessionState :=
      { client := mkDatacatClient, sessionId := "s", monitor := none }
    let aDrop : AsyncSessionState :=
      { queue := [it0], queueSize := 1, dropOnFull := true, running := true,
        threadAlive := true, sentCount := 0, droppedCount := 0,
        session := sess }
    putNowait aDrop.queueSize aDrop.queue it0 = Except.error ()
    ∧ (aDrop.dropOnFull = true →
        queueItem aDrop it0
          = ({ aDrop with droppedCount := aDrop.droppedCount + 1 }, false))
    ∧ (aDrop.dropOnFull = false →
        queueItem aDrop it0
          = ({ aDrop with queue := aDrop.queue ++ [it0] }, true)) :=
  queue_full_policy _ _ (by decide) (by decide)

/-- Evaluation of `Outcome.isOk` on a success. -/
theorem outcome_isOk_ok : Outcome.ok.isOk = true := rfl

/-- Evaluation of `Outcome.isOk` on a failure. -/
theorem outcome_isOk_err (m : String) : (Outcome.err m).isOk = false := rfl

/-- Evaluation of `Outcome.errMsg` on a failure. -/
theorem outcome_errMsg_err (m : String) : (Outcome.err m).errMsg = m := rfl

/-- Sent-counter characterisation of the worker over a popped sequence:
helper for the C2 theorem. -/
theorem runWorker_stats (f : SyncFacade) (a : AsyncSessionState)
    (items : List WorkItem) :
    (runWorker f a items).1.sentCount
        = a.sentCount + items.countP (fun it => (invokeSync f it).isOk)
    ∧ (runWorker f a items).1.droppedCount = a.droppedCount
    ∧ (runWorker f a items).1.queue = a.queue
    ∧ (runWorker f a items).2
        = (items.filter (fun it => !(invokeSync f it).isOk)).map
            (fun it => "AsyncSession error: " ++ (invokeSync f it).errMsg) := by
  induction items generalizing a with
  | nil => simp [runWorker]
  | cons it rest ih =>
    cases h : invokeSync f it with
    | ok =>
      have hp : processOne f a it
          = ({ a with sentCount := a.sentCount + 1 }, []) := by
        simp [processOne, h]
      obtain ⟨ih1, ih2, ih3, ih4⟩ :=
        ih (a := { a with sentCount := a.sentCount + 1 })
      refine ⟨?_, ?_, ?_, ?_⟩
      · simp only [runWorker, hp]
        simp only [ih1]
        simp [List.countP_cons, h, outcome_isOk_ok]
        omega
      · simp only [runWorker, hp]
        simpa using ih2
      · simp only [runWorker, hp]
        simpa using ih3
      · simp only [runWorker, hp]
        simp [ih4, List.filter_cons, h, outcome_isOk_ok]
    | err m =>
      have hp : processOne f a it = (a, ["AsyncSession error: " ++ m]) := by
        simp [processOne, h]
      obtain ⟨ih1, ih2, ih3, ih4⟩ := ih (a := a)
      refine ⟨?_, ?_, ?_, ?_⟩
      · simp only [runWorker, hp]
        simp [ih1, List.countP_cons, h, outcome_isOk_err]
      · simp only [runWorker, hp]
        simpa using ih2
      · simp only [runWorker, hp]
        simpa using ih3
      · simp only [runWorker, hp]
        simp [ih4, List.filter_cons, h, outcome_isOk_err, outcome_errMsg_err]

/-- C2: over any sequence of items popped by `_background_sender`, the sent
counter grows by exactly the number of items whose synchronous operation
returned without error; each failing item contributes one logged error line
and is otherwise skipped without retry; the worker processes the whole
sequence, so one failing item never stops subsequent delivery (the dropped
counter and queue are untouched by the worker). -/
theorem background_sender_delivery (f : SyncFacade) (a : AsyncSessionState)
    (items : List WorkItem) :
    (runWorker f a items).1.sentCount
        = a.sentCount + items.countP (fun it => (invokeSync f it).isOk)
    ∧ (runWorker f a items).1.droppedCount = a.droppedCount
    ∧ (runWorker f a items).1.queue = a.queue
    ∧ (runWorker f a items).2
        = (items.filter (fun it => !(invokeSync f it).isOk)).map
            (fun it => "AsyncSession error: " ++ (invokeSync f it).errMsg) :=
  runWorker_stats f a items

/-- C9: `Timer.__exit__` computes the elapsed duration from the recorded
start time, multiplies by 1000 exactly when the configured unit is
"milliseconds", emits a timer metric whose iteration count is included only
when positive, behaves identically whether or not the protected block is
exiting with an in-flight exception, and returns False so that exception is
never suppressed. -/
theorem timer_exit_behavior (endTime : ℚ) (excRaised : Bool) (t : TimerState) :
    (timerExit endTime excRaised t).2 = false
    ∧ (timerExit endTime excRaised t).1.value
        = (if t.unit = "milliseconds" then (endTime - t.startTime) * 1000
           else endTime - t.startTime)
    ∧ (timerExit endTime excRaised t).1.count
        = (if t.count > 0 then some t.count else none)
    ∧ (timerExit endTime excRaised t).1.metricType = "timer"
    ∧ (timerExit endTime excRaised t).1.name = t.name
    ∧ (timerExit endTime excRaised t).1.unit = t.unit
    ∧ timerExit endTime true t = timerExit endTime false t := by
  refine ⟨rfl, rfl, rfl, rfl, rfl, rfl, rfl⟩

/-- C10: `AsyncSession.heartbeat()` on a session whose monitor was never
started is a silent no-op — it returns the state unchanged, emits nothing and
raises nothing — whereas `Session.heartbeat()` raises in the same
situation. -/
theorem async_heartbeat_no_monitor (now : ℚ) (postOk recoveryOk : Bool)
    (a : AsyncSessionState) (h : a.session.monitor = none) :
    asyncHeartbeat now postOk recoveryOk a = (a, [])
    ∧ sessionHeartbeat now postOk recoveryOk a.session
        = Except.error
            "Heartbeat monitor not started. Call start_heartbeat_monitor() first." := by
  constructor
  · unfold asyncHeartbeat
    rw [h]
  · unfold sessionHeartbeat
    rw [h]

/-- C10 witness: a concrete async session with no heartbeat monitor. -/
theorem async_heartbeat_no_monitor_witness :
    let a : AsyncSessionState :=
      { queue := [], queueSize := 10000, dropOnFull := true, running := true,
        threadAlive := true, sentCount := 0, droppedCount := 0,
        session := { client := mkDatacatClient, sessionId := "s",
                     monitor := none } }
    asyncHeartbeat 5 true true a = (a, [])
    ∧ sessionHeartbeat 5 true true a.session
        = Except.error
            "Heartbeat monitor not started. Call start_heartbeat_monitor() first." :=
  async_heartbeat_no_monitor 5 true true _ rfl

/-- C6: a `heartbeat()` call on a monitor whose hung flag is set clears the
flag and emits exactly one recovery signal; the flag is cleared and the state
is the same even when delivering the recovery event fails (the exception is
swallowed inside `heartbeat`, which is total, so nothing propagates to the
caller); a further heartbeat on the resulting state emits no recovery
signal. -/
theorem heartbeat_recovery_exactly_once (now : ℚ) (postOk recoveryOk : Bool)
    (m : MonitorState) (h : m.hungLogged = true) :
    (monitorHeartbeat now postOk recoveryOk m).1.hungLogged = false
    ∧ (monitorHeartbeat now postOk recoveryOk m).1.lastHeartbeat = now
    ∧ (recoveryOk = true →
        (monitorHeartbeat now postOk recoveryOk m).2.count Signal.recoveryEvent
          = 1)
    ∧ (monitorHeartbeat now postOk recoveryOk m).1
        = (monitorHeartbeat now postOk true m).1
    ∧ (∀ (t2 : ℚ) (p2 r2 : Bool),
        (monitorHeartbeat t2 p2 r2
            (monitorHeartbeat now postOk recoveryOk m).1).2.count
          Signal.recoveryEvent = 0) := by
  refine ⟨?_, ?_, ?_, ?_, ?_⟩
  · simp [monitorHeartbeat, h]
  · simp [monitorHeartbeat, h]
  · intro hr
    cases postOk <;> simp [monitorHeartbeat, h, hr, List.count_cons]
  · simp [monitorHeartbeat, h]
  · intro t2 p2 r2
    cases postOk <;> cases recoveryOk <;> cases p2 <;>
      simp [monitorHeartbeat, h, List.count_cons]

/-- C6 witness: a concrete hung monitor, heartbeat delivered with the
recovery event succeeding. -/
theorem heartbeat_recovery_exactly_once_witness :
    let m : MonitorState :=
      { client := { useDaemon := false }, sessionId := "s", timeout := 1,
        checkInterval := 1/2, lastHeartbeat := 0, running := true,
        hungLogged := true, threadsSpawned := 1 }
    (monitorHeartbeat 3 true true m).1.hungLogged = false
    ∧ (monitorHeartbeat 3 true true m).1.lastHeartbeat = 3
    ∧ (true = true →
        (monitorHeartbeat 3 true true m).2.count Signal.recoveryEvent = 1)
    ∧ (monitorHeartbeat 3 true true m).1 = (monitorHeartbeat 3 true true m).1
    ∧ (∀ (t2 : ℚ) (p2 r2 : Bool),
        (monitorHeartbeat t2 p2 r2 (monitorHeartbeat 3 true true m).1).2.count
          Signal.recoveryEvent = 0) :=
  heartbeat_recovery_exactly_once 3 true true _ rfl

/-- C7: calling `Session.start_heartbeat_monitor` a second time while the
monitor is already running returns the same monitor both times, leaves the
session unchanged, spawns no second checker thread (the spawn count stays at
one) and does not reset the heartbeat timestamp recorded by the first
start. -/
theorem start_heartbeat_monitor_idempotent (cl : ClientState) (sid : String)
    (now timeout checkInterval now2 timeout2 checkInterval2 : ℚ) :
    let s0 : SessionState := { client := cl, sessionId := sid, monitor := none }
    let r1 := startHeartbeatMonitor now timeout checkInterval s0
    let r2 := startHeartbeatMonitor now2 timeout2 checkInterval2 r1.1
    r2.1 = r1.1 ∧ r2.2 = r1.2
    ∧ r1.2.threadsSpawned = 1 ∧ r2.2.threadsSpawned = 1
    ∧ r2.2.lastHeartbeat = now ∧ r2.2.running = true := by
  refine ⟨rfl, rfl, rfl, rfl, rfl, rfl⟩

/-- C3 counterexample: a `HeartbeatMonitor` built over an actual
`DatacatClient` (whose constructor hardwires `use_daemon = True`), started at
time 0 with timeout 1 s and check interval 0.5 s and given no heartbeats,
emits no hang signal and never sets the hung flag even after ten checks
(elapsed 5 s, far beyond timeout + check_interval = 1.5 s): the loop body is
skipped by `if self.client.use_daemon: continue`, contradicting the claim
that a hang signal is emitted within timeout + check_interval. -/
theorem daemon_mode_no_local_hang_cex :
    mkDatacatClient.useDaemon = true
    ∧ (10 : ℚ) * (1/2) > 1 + 1/2
    ∧ (monitorRun true 0
        ((monitorStart 0 (mkHeartbeatMonitor mkDatacatClient "sess" 1 (1/2) 0)).1)
        10).2 = []
    ∧ (monitorRun true 0
        ((monitorStart 0 (mkHeartbeatMonitor mkDatacatClient "sess" 1 (1/2) 0)).1)
        10).1.hungLogged = false := by
  refine ⟨rfl, by norm_num, rfl, rfl⟩

/-- Invariant of the checker loop when the client does not delegate to the
daemon: starting from a non-hung monitor whose last heartbeat equals the loop
start time, after `n` checks the hung flag is set exactly when the elapsed
time `n * check_interval` exceeds the timeout, and the hang event has been
emitted exactly once in that case.  Helper for the C3 theorem. -/
theorem monitorRun_no_daemon (m : MonitorState) (t0 : ℚ) (n : ℕ)
    (hd : m.client.useDaemon = false) (hh : m.hungLogged = false)
    (hl : m.lastHeartbeat = t0) (hc : 0 < m.checkInterval)
    (ht : 0 ≤ m.timeout) :
    monitorRun true t0 m n
      = ({ m with
            hungLogged := decide (m.timeout < (n : ℚ) * m.checkInterval) },
         if m.timeout < (n : ℚ) * m.checkInterval then [Signal.hangEvent]
         else []) := by
  obtain ⟨cl, sid, tmo, ci, lh, ru, hu, ts⟩ := m
  dsimp only at hd hh hl hc ht ⊢
  subst hh
  subst hl
  induction n with
  | zero =>
    have h0 : ¬ tmo < (0 : ℚ) := by linarith
    simp [monitorRun, h0]
  | succ n ih =>
    have hr : ((n : ℚ) + 1) * ci = (n : ℚ) * ci + ci := by ring
    by_cases h1 : tmo < (n : ℚ) * ci
    · have h2 : tmo < ((n : ℚ) + 1) * ci := by
        rw [hr]
        linarith
      simp only [monitorRun, ih]
      rw [monitorCheck]
      simp [hd, h1, h2, add_sub_cancel_left]
    · by_cases h2 : tmo < ((n : ℚ) + 1) * ci
      · simp only [monitorRun, ih]
        rw [monitorCheck]
        simp [hd, h1, h2, add_sub_cancel_left]
      · simp only [monitorRun, ih]
        rw [monitorCheck]
        simp [hd, h1, h2, add_sub_cancel_left]

/-- C3 (amended): hang detection as claimed holds only when the monitor's
client does not delegate to the daemon (`use_daemon = False`; with a real
`DatacatClient` the flag is always True and the local checker emits nothing,
deferring hang detection to the daemon).  For a started monitor with no
heartbeats and `use_daemon = False`: once enough checks have run that the
elapsed time exceeds the timeout, exactly one hang signal has been emitted —
no matter how much longer the loop runs — and the hung flag is set; moreover
any check that is the first to emit happens at a wall-clock offset of at most
timeout + check_interval from start (if no signal was emitted by the k-th
check, the next check is at time (k+1)*check_interval ≤ timeout +
check_interval from start). -/
theorem hang_signal_once_without_daemon (cl : ClientState) (sid : String)
    (timeout checkInterval t0 : ℚ) (n k : ℕ)
    (hd : cl.useDaemon = false) (hc : 0 < checkInterval)
    (ht : 0 ≤ timeout) :
    (timeout < (n : ℚ) * checkInterval →
        (monitorRun true t0
            ((monitorStart t0
                (mkHeartbeatMonitor cl sid timeout checkInterval t0)).1)
            n).2 = [Signal.hangEvent]
        ∧ (monitorRun true t0
            ((monitorStart t0
                (mkHeartbeatMonitor cl sid timeout checkInterval t0)).1)
            n).1.hungLogged = true)
    ∧ ((monitorRun true t0
          ((monitorStart t0
              (mkHeartbeatMonitor cl sid timeout checkInterval t0)).1)
          k).2 = [] →
        ((k : ℚ) + 1) * checkInterval ≤ timeout + checkInterval) := by
  have hm : (monitorStart t0
      (mkHeartbeatMonitor cl sid timeout checkInterval t0)).1
      = { client := cl, sessionId := sid, timeout := timeout,
          checkInterval := checkInterval, lastHeartbeat := t0,
          running := true, hungLogged := false, threadsSpawned := 1 } := by
    simp [monitorStart, mkHeartbeatMonitor]
  rw [hm]
  have hrn := monitorRun_no_daemon
    (m := { client := cl, sessionId := sid, timeout := timeout,
            checkInterval := checkInterval, lastHeartbeat := t0,
            running := true, hungLogged := false, threadsSpawned := 1 })
    t0 n hd rfl rfl hc ht
  have hrk := monitorRun_no_daemon
    (m := { client := cl, sessionId := sid, timeout := timeout,
            checkInterval := checkInterval, lastHeartbeat := t0,
            running := true, hungLogged := false, threadsSpawned := 1 })
    t0 k hd rfl rfl hc ht
  constructor
  · intro hn
    rw [hrn]
    simp [hn]
  · intro hk
    rw [hrk] at hk
    by_cases hkc : timeout < (k : ℚ) * checkInterval
    · simp [hkc] at hk
    · have h1 : (k : ℚ) * checkInterval ≤ timeout := le_of_not_lt hkc
      have h2 : ((k : ℚ) + 1) * checkInterval
          = (k : ℚ) * checkInterval + checkInterval := by ring
      rw [h2]
      linarith

/-- C3 (amended) witness: timeout 1 s, check interval 0.5 s, no daemon
delegation; after four checks (elapsed 2 s) exactly one hang signal has been
emitted, and the empty signal list after two checks (elapsed 1 s) bounds the
first possible emission at 1.5 s = timeout + check_interval. -/
theorem hang_signal_once_without_daemon_witness :
    ((0 : ℚ) < 1/2 ∧ (0 : ℚ) ≤ 1)
    ∧ (((1 : ℚ) < (4 : ℕ) * (1/2 : ℚ) →
        (monitorRun true 0
            ((monitorStart 0
                (mkHeartbeatMonitor { useDaemon := false } "s" 1 (1/2) 0)).1)
            4).2 = [Signal.hangEvent]
        ∧ (monitorRun true 0
            ((monitorStart 0
                (mkHeartbeatMonitor { useDaemon := false } "s" 1 (1/2) 0)).1)
            4).1.hungLogged = true)
      ∧ ((monitorRun true 0
            ((monitorStart 0
                (mkHeartbeatMonitor { useDaemon := false } "s" 1 (1/2) 0)).1)
            2).2 = [] →
          (((2 : ℕ) : ℚ) + 1) * (1/2) ≤ 1 + 1/2)) :=
  ⟨⟨by norm_num, by norm_num⟩,
    hang_signal_once_without_daemon { useDaemon := false } "s" 1 (1/2) 0 4 2
      rfl (by norm_num) (by norm_num)⟩

/-- C4 counterexample: after a first `shutdown()` that completed successfully
(outcome ok), a second `shutdown()` is not a no-op — it re-invokes the
underlying session's `end()`, i.e. another `end_session` HTTP request — and
when that second request fails (the facade may fail any call, spec section 6,
e.g. because the daemon rejects ending an already-ended session or is gone)
the transport exception propagates to the caller, contradicting the claim
that a second call is a no-op or completes without raising. -/
theorem second_shutdown_raises_cex :
    let f1 : SyncFacade :=
      { updateState := fun _ => Outcome.ok, logEvent := fun _ => Outcome.ok,
        logMetric := fun _ => Outcome.ok, logException := fun _ => Outcome.ok,
        endSession := Outcome.ok }
    let f2 : SyncFacade :=
      { f1 with endSession := Outcome.err "URL Error: connection refused" }
    let a0 : AsyncSessionState :=
      { queue := [], queueSize := 10000, dropOnFull := true, running := true,
        threadAlive := true, sentCount := 0, droppedCount := 0,
        session := { client := mkDatacatClient, sessionId := "s",
                     monitor := none } }
    (asyncShutdown f1 a0).2 = Outcome.ok
    ∧ (asyncShutdown f2 (asyncShutdown f1 a0).1).2
        = Outcome.err "URL Error: connection refused"
    ∧ (asyncShutdown f2 (asyncShutdown f1 a0).1).2 ≠ Outcome.ok := by
  refine ⟨rfl, rfl, ?_⟩
  intro hcon
  exact Outcome.noConfusion hcon

/-- C4 (amended): a second `shutdown()` call on an already-shut-down
`AsyncSession` never panics or crashes — flushing the empty queue, clearing
the already-false running flag and skipping the join of the dead worker are
all safe, and the call is total — but it is not a no-op: it re-invokes the
underlying session's `end()`, so it raises exactly when that end operation
raises a transport error, and it completes without raising whenever that
operation succeeds. -/
theorem second_shutdown_safe (f : SyncFacade) (a : AsyncSessionState)
    (_hr : a.running = false) (htd : a.threadAlive = false) :
    (asyncShutdown f a).2 = f.endSession
    ∧ (asyncShutdown f a).1.running = false
    ∧ (asyncShutdown f a).1.threadAlive = false
    ∧ (asyncShutdown f a).1.queue = a.queue
    ∧ (asyncShutdown f a).1.sentCount = a.sentCount
    ∧ (asyncShutdown f a).1.droppedCount = a.droppedCount
    ∧ (f.endSession = Outcome.ok → (asyncShutdown f a).2 = Outcome.ok) := by
  cases hms : a.session.monitor <;>
    simp [asyncShutdown, sessionEnd, htd, hms]

/-- C4 (amended) witness: a concrete already-shut-down session and a facade
whose end operation succeeds. -/
theorem second_shutdown_safe_witness :
    let f : SyncFacade :=
      { updateState := fun _ => Outcome.ok, logEvent := fun _ => Outcome.ok,
        logMetric := fun _ => Outcome.ok, logException := fun _ => Outcome.ok,
        endSession := Outcome.ok }
    let a : AsyncSessionState :=
      { queue := [], queueSize := 10000, dropOnFull := true, running := false,
        threadAlive := false, sentCount := 7, droppedCount := 0,
        session := { client := mkDatacatClient, sessionId := "s",
                     monitor := none } }
    (asyncShutdown f a).2 = f.endSession
    ∧ (asyncShutdown f a).1.running = false
    ∧ (asyncShutdown f a).1.threadAlive = false
    ∧ (asyncShutdown f a).1.queue = a.queue
    ∧ (asyncShutdown f a).1.sentCount = a.sentCount
    ∧ (asyncShutdown f a).1.droppedCount = a.droppedCount
    ∧ (f.endSession = Outcome.ok → (asyncShutdown f a).2 = Outcome.ok) :=
  second_shutdown_safe _ _ rfl rfl

/-- C5: after `stop()` on a started manager (one whose config path is set),
with the best-effort deletion succeeding: the subprocess is no longer alive;
if it was alive, it was asked to terminate gracefully and waited on with a
bounded timeout, and it was force-killed exactly when the bounded wait did
not see it exit; the per-port configuration artifact no longer exists on
disk; and `is_running()` subsequently returns false. -/
theorem daemon_stop_cleanup (exitsInTime : Bool) (d : DaemonState)
    (p : String) (hc : d.configPath = some p) :
    isRunning (daemonStop exitsInTime true d).1 = false
    ∧ (daemonStop exitsInTime true d).1.processAlive ≠ some true
    ∧ p ∉ (daemonStop exitsInTime true d).1.fs
    ∧ (d.processAlive = some true →
        DaemonAction.terminateProc ∈ (daemonStop exitsInTime true d).2
        ∧ DaemonAction.waitProc ∈ (daemonStop exitsInTime true d).2
        ∧ (exitsInTime = false →
            DaemonAction.killProc ∈ (daemonStop exitsInTime true d).2)
        ∧ (exitsInTime = true →
            DaemonAction.killProc ∉ (daemonStop exitsInTime true d).2)) := by
  by_cases hpa : d.processAlive = some true <;>
    cases exitsInTime <;>
    by_cases hmem : p ∈ d.fs <;>
    simp [daemonStop, isRunning, hpa, hc, hmem, List.mem_filter]

/-- C5 witness: a concrete started manager with a live subprocess that does
not exit within the graceful wait. -/
theorem daemon_stop_cleanup_witness :
    let d : DaemonState :=
      { daemonPort := "49152", serverUrl := "http://localhost:9090",
        daemonBinary := "datacat-daemon", processAlive := some true,
        started := true,
        configPath := some (configPathFor "49152"),
        fs := [configPathFor "49152"] }
    isRunning (daemonStop false true d).1 = false
    ∧ (daemonStop false true d).1.processAlive ≠ some true
    ∧ configPathFor "49152" ∉ (daemonStop false true d).1.fs
    ∧ (d.processAlive = some true →
        DaemonAction.terminateProc ∈ (daemonStop false true d).2
        ∧ DaemonAction.waitProc ∈ (daemonStop false true d).2
        ∧ (false = false →
            DaemonAction.killProc ∈ (daemonStop false true d).2)
        ∧ (false = true →
            DaemonAction.killProc ∉ (daemonStop false true d).2)) :=
  daemon_stop_cleanup false _ _ rfl

/-- C8: `start()` on a not-yet-started manager writes the configuration
artifact — named after the resolved port — before spawning the subprocess,
hands the subprocess the config path through its environment
(`DATACAT_CONFIG`), sleeps the fixed grace period and then polls liveness;
when the subprocess has already exited, `start` raises an exception embedding
the captured stderr and stdout; when the spawn itself fails with an OSError,
`start` raises an exception naming the binary — either way launch failure is
raised to the constructing caller. -/
theorem daemon_start_launch_protocol (resolvedPort : String)
    (sp : SpawnResult) (d : DaemonState) (h : d.started = false) :
    (∀ b, sp = SpawnResult.spawned b →
        (daemonStart resolvedPort sp d).trace
          = [DaemonAction.makeConfigDir,
             DaemonAction.writeConfig (configPathFor
               (if d.daemonPort = "auto" ∨ d.daemonPort = "8079"
                then resolvedPort else d.daemonPort)),
             DaemonAction.spawnProc d.daemonBinary (configPathFor
               (if d.daemonPort = "auto" ∨ d.daemonPort = "8079"
                then resolvedPort else d.daemonPort)),
             DaemonAction.sleepGrace, DaemonAction.pollLiveness]
            ++ (if b.exitsDuringGrace then []
                else [DaemonAction.registerAtexit])
        ∧ configPathFor
            (if d.daemonPort = "auto" ∨ d.daemonPort = "8079"
             then resolvedPort else d.daemonPort)
            ∈ (daemonStart resolvedPort sp d).state.fs
        ∧ (b.exitsDuringGrace = true →
            (daemonStart resolvedPort sp d).raised
              = some ("Daemon failed to start. Stderr: " ++ b.stderrOutput
                  ++ ", Stdout: " ++ b.stdoutOutput))
        ∧ (b.exitsDuringGrace = false →
            (daemonStart resolvedPort sp d).raised = none
            ∧ (daemonStart resolvedPort sp d).state.processAlive = some true))
    ∧ (∀ msg, sp = SpawnResult.osError msg →
        (daemonStart resolvedPort sp d).raised
          = some ("Failed to start daemon binary " ++ d.daemonBinary
              ++ ": " ++ msg)
        ∧ (daemonStart resolvedPort sp d).trace
          = [DaemonAction.makeConfigDir,
             DaemonAction.writeConfig (configPathFor
               (if d.daemonPort = "auto" ∨ d.daemonPort = "8079"
                then resolvedPort else d.daemonPort))]) := by
  constructor
  · rintro b rfl
    cases hb : b.exitsDuringGrace <;>
      simp [daemonStart, h, hb]
  · rintro msg rfl
    simp [daemonStart, h]

/-- C8 witness: a fresh manager on automatic port assignment whose daemon
subprocess exits during the grace period with captured diagnostics. -/
theorem daemon_start_launch_protocol_witness :
    let d := mkDaemonManager "auto" "http://localhost:9090" "datacat-daemon" []
    let sp := SpawnResult.spawned
      { exitsDuringGrace := true, stderrOutput := "bind failed",
        stdoutOutput := "starting" }
    (∀ b, sp = SpawnResult.spawned b →
        (daemonStart "49152" sp d).trace
          = [DaemonAction.makeConfigDir,
             DaemonAction.writeConfig (configPathFor
               (if d.daemonPort = "auto" ∨ d.daemonPort = "8079"
                then "49152" else d.daemonPort)),
             DaemonAction.spawnProc d.daemonBinary (configPathFor
               (if d.daemonPort = "auto" ∨ d.daemonPort = "8079"
                then "49152" else d.daemonPort)),
             DaemonAction.sleepGrace, DaemonAction.pollLiveness]
            ++ (if b.exitsDuringGrace then []
                else [DaemonAction.registerAtexit])
        ∧ configPathFor
            (if d.daemonPort = "auto" ∨ d.daemonPort = "8079"
             then "49152" else d.daemonPort)
            ∈ (daemonStart "49152" sp d).state.fs
        ∧ (b.exitsDuringGrace = true →
            (daemonStart "49152" sp d).raised
              = some ("Daemon failed to start. Stderr: " ++ b.stderrOutput
                  ++ ", Stdout: " ++ b.stdoutOutput))
        ∧ (b.exitsDuringGrace = false →
            (daemonStart "49152" sp d).raised = none
            ∧ (daemonStart "49152" sp d).state.processAlive = some true))
    ∧ (∀ msg, sp = SpawnResult.osError msg →
        (daemonStart "49152" sp d).raised
          = some ("Failed to start daemon binary " ++ d.daemonBinary
              ++ ": " ++ msg)
        ∧ (daemonStart "49152" sp d).trace
          = [DaemonAction.makeConfigDir,
             DaemonAction.writeConfig (configPathFor
               (if d.daemonPort = "auto" ∨ d.daemonPort = "8079"
                then "49152" else d.daemonPort))]) :=
  daemon_start_launch_protocol "49152" _ _ rfl

end Datacat
